import Mathlib

/-!
Shallow embedding of `src/validators/validate_example.py` (an OpenAPI
example validator) and proofs about its validation engine.

Modelling conventions:
- JSON/YAML runtime values are the inductive `Value`.  Numeric scalars are
  modelled as integers (`vInt`); floating point values are out of scope.
- Python booleans are a subclass of `int`, so `isinstance(v, int)` is true
  for booleans; the embedding keeps that behaviour (`pyIsInt`).
- Operations that raise in Python (`len` on a non-sized value, `.lower()`
  or `.startswith` on a non-string, `in` on a non-container, `<`/`>`
  between non-comparable values, `dict[key]` on a missing key) are
  modelled in `Except PyErr`.
- Python `==` used by list membership is `pyEq`; dictionary comparison is
  modelled pairwise in order (no claim depends on dictionary equality).
- String operations (`.lower()`, lengths) are modelled with Lean string
  primitives; all strings involved in the claims are ASCII.
-/

inductive Value where
  | vNull
  | vBool (b : Bool)
  | vInt (n : Int)
  | vStr (s : String)
  | vList (xs : List Value)
  | vDict (xs : List (String × Value))

/-- Python exceptions that the validator can raise. -/
inductive PyErr where
  | typeError (msg : String)
  | attributeError (msg : String)
  | keyError (key : String)
deriving Repr, DecidableEq

/-- Decidable equality for results, so concrete runs can be checked by
evaluation. -/
instance exceptDecEq {ε α : Type} [DecidableEq ε] [DecidableEq α] : DecidableEq (Except ε α) :=
  fun a b =>
    match a, b with
    | .error e1, .error e2 =>
      if h : e1 = e2 then isTrue (h ▸ rfl) else isFalse (fun hc => h (Except.error.inj hc))
    | .ok x, .ok y =>
      if h : x = y then isTrue (h ▸ rfl) else isFalse (fun hc => h (Except.ok.inj hc))
    | .error _, .ok _ => isFalse (fun hc => Except.noConfusion hc)
    | .ok _, .error _ => isFalse (fun hc => Except.noConfusion hc)

mutual

/-- Python value equality (`==`): booleans compare equal to their numeric
value, lists compare elementwise; dictionaries are modelled pairwise. -/
def pyEq : Value → Value → Bool
  | .vNull, .vNull => true
  | .vBool a, .vBool b => a == b
  | .vBool a, .vInt n => (if a then (1 : Int) else 0) == n
  | .vInt n, .vBool a => n == (if a then (1 : Int) else 0)
  | .vInt a, .vInt b => a == b
  | .vStr a, .vStr b => a == b
  | .vList a, .vList b => pyEqList a b
  | .vDict a, .vDict b => pyEqPairs a b
  | _, _ => false

def pyEqList : List Value → List Value → Bool
  | [], [] => true
  | a :: as, b :: bs => pyEq a b && pyEqList as bs
  | _, _ => false

def pyEqPairs : List (String × Value) → List (String × Value) → Bool
  | [], [] => true
  | (k1, a) :: as, (k2, b) :: bs => k1 == k2 && pyEq a b && pyEqPairs as bs
  | _, _ => false

end

mutual

/-- Python `repr` of a value (used by str() on containers). -/
def pyRepr : Value → String
  | .vNull => "None"
  | .vBool b => if b then "True" else "False"
  | .vInt n => toString n
  | .vStr s => "\x27" ++ s ++ "\x27"
  | .vList xs => "[" ++ pyReprList xs ++ "]"
  | .vDict xs => "\x7b" ++ pyReprPairs xs ++ "\x7d"

def pyReprList : List Value → String
  | [] => ""
  | [x] => pyRepr x
  | x :: y :: xs => pyRepr x ++ ", " ++ pyReprList (y :: xs)

def pyReprPairs : List (String × Value) → String
  | [] => ""
  | [(k, v)] => "\x27" ++ k ++ "\x27: " ++ pyRepr v
  | (k, v) :: p :: xs => "\x27" ++ k ++ "\x27: " ++ pyRepr v ++ ", " ++ pyReprPairs (p :: xs)

end

/-- Python `str` of a value, as used by f-string interpolation. -/
def pyStr : Value → String
  | .vStr s => s
  | v => pyRepr v

/-- Name of the runtime type of a value (`type(v).__name__`). -/
def pyTypeName : Value → String
  | .vNull => "NoneType"
  | .vBool _ => "bool"
  | .vInt _ => "int"
  | .vStr _ => "str"
  | .vList _ => "list"
  | .vDict _ => "dict"

/-- Python `isinstance(v, str)`. -/
def pyIsStr : Value → Bool
  | .vStr _ => true
  | _ => false

/-- Python `isinstance(v, int)`: true for booleans, which are a subclass
of `int` in Python. -/
def pyIsInt : Value → Bool
  | .vInt _ => true
  | .vBool _ => true
  | _ => false

/-- Python `isinstance(v, (int, float))`; floats are out of the model, so
this coincides with `pyIsInt`. -/
def pyIsNum : Value → Bool
  | .vInt _ => true
  | .vBool _ => true
  | _ => false

/-- Python `isinstance(v, list)`. -/
def pyIsList : Value → Bool
  | .vList _ => true
  | _ => false

/-- Python `isinstance(v, dict)`. -/
def pyIsDict : Value → Bool
  | .vDict _ => true
  | _ => false

/-- Python `len(v)`: defined on strings, lists and dictionaries; raises
`TypeError` otherwise. -/
def pyLen : Value → Except PyErr Int
  | .vStr s => .ok s.length
  | .vList xs => .ok xs.length
  | .vDict xs => .ok xs.length
  | .vNull => .error (.typeError "object of type NoneType has no len()")
  | .vBool _ => .error (.typeError "object of type bool has no len()")
  | .vInt _ => .error (.typeError "object of type int has no len()")

/-- Python `v < m` for an integer bound `m`: defined on numbers (booleans
coerce to 0/1); raises `TypeError` otherwise. -/
def pyLtInt (v : Value) (m : Int) : Except PyErr Bool :=
  match v with
  | .vInt n => .ok (n < m)
  | .vBool b => .ok ((if b then (1 : Int) else 0) < m)
  | w => .error (.typeError ("unorderable: " ++ pyTypeName w ++ " < int"))

/-- Python `v > m` for an integer bound `m`. -/
def pyGtInt (v : Value) (m : Int) : Except PyErr Bool :=
  match v with
  | .vInt n => .ok (n > m)
  | .vBool b => .ok ((if b then (1 : Int) else 0) > m)
  | w => .error (.typeError ("unorderable: " ++ pyTypeName w ++ " > int"))

/-- Python `"@" in v`: substring test on strings (a one-character needle,
so a character membership test), membership via `==` on lists, key
membership on dictionaries; raises `TypeError` otherwise. -/
def pyContainsAtSign : Value → Except PyErr Bool
  | .vStr s => .ok (s.data.contains '@')
  | .vList xs => .ok (xs.any (fun e => pyEq e (.vStr "@")))
  | .vDict xs => .ok (xs.any (fun p => p.1 == "@"))
  | v => .error (.typeError ("argument of type " ++ pyTypeName v ++ " is not iterable"))

/-- Python `v.startswith(("http://", "https://"))`: raises
`AttributeError` when `v` is not a string. -/
def pyStartsHttp : Value → Except PyErr Bool
  | .vStr s => .ok (List.isPrefixOf "http://".data s.data || List.isPrefixOf "https://".data s.data)
  | v => .error (.attributeError (pyTypeName v ++ " object has no attribute startswith"))

/-- Lowercase one ASCII character, as Python `str.lower` does on the
ASCII range (all strings involved in the claims are ASCII). -/
def asciiToLower (c : Char) : Char :=
  if c ≥ 'A' && c ≤ 'Z' then Char.ofNat (c.toNat + 32) else c

/-- Lowercase hexadecimal digit, as matched by the character class
`[0-9a-f]` of the UUID pattern. -/
def isLowerHex (c : Char) : Bool :=
  (c ≥ '0' && c ≤ '9') || (c ≥ 'a' && c ≤ 'f')

/-- Consume exactly `n` lowercase hex digits from the front. -/
def hexRun : Nat → List Char → Option (List Char)
  | 0, rest => some rest
  | n + 1, c :: rest => if isLowerHex c then hexRun n rest else none
  | _ + 1, [] => none

/-- Consume a literal dash. -/
def expectDash : List Char → Option (List Char)
  | '-' :: rest => some rest
  | _ => none

/-- Match the body of the regex `[0-9a-f]{8}-[0-9a-f]{4}-[0-9a-f]{4}-[0-9a-f]{4}-[0-9a-f]{12}`
from the front, returning the remaining characters. -/
def uuidParse (cs : List Char) : Option (List Char) :=
  (hexRun 8 cs).bind expectDash |>.bind (hexRun 4) |>.bind expectDash
    |>.bind (hexRun 4) |>.bind expectDash |>.bind (hexRun 4) |>.bind expectDash
    |>.bind (hexRun 12)

/-- Python `re.match` with the anchored UUID pattern: `$` also matches
just before one trailing newline. -/
def uuidMatch (s : String) : Bool :=
  match uuidParse s.data with
  | some [] => true
  | some [c] => c == '\n'
  | _ => false

/-- Embeds `is_valid_uuid`: lowercases the value (raising
`AttributeError` on non-strings, as `.lower()` does) and matches the
anchored UUID regex. -/
def is_valid_uuid (v : Value) : Except PyErr Bool :=
  match v with
  | .vStr s => .ok (uuidMatch ⟨s.data.map asciiToLower⟩)
  | w => .error (.attributeError (pyTypeName w ++ " object has no attribute lower"))

/-- Field schema: the keys the code reads from a property entry via
`.get` / `in`, each optional. Numeric bounds are modelled as integers. -/
structure FieldSchema where
  type : Option String := none
  enum : Option (List Value) := none
  format : Option String := none
  minLength : Option Int := none
  maxLength : Option Int := none
  minimum : Option Int := none
  maximum : Option Int := none

/-- Schema definition: `required` list and `properties` mapping (an
insertion-ordered dictionary, modelled as an association list). -/
structure SchemaDef where
  required : List String := []
  properties : List (String × FieldSchema) := []

/-- Instance under validation: an insertion-ordered mapping from field
names to values. -/
abbrev Instance := List (String × Value)

/-- Error message emitted by the type check. -/
def mustBeMsg (name ty got : String) : String :=
  "Field \x27" ++ name ++ "\x27 must be " ++ ty ++ ", got " ++ got

/-- Error message emitted by the enum check. -/
def enumMsg (name : String) (v : Value) (allowed : List Value) : String :=
  "Field \x27" ++ name ++ "\x27 value \x27" ++ pyStr v ++
    "\x27 not in allowed values: " ++ pyRepr (.vList allowed)

/-- Error message emitted by the format check. -/
def notValidMsg (name kind : String) : String :=
  "Field \x27" ++ name ++ "\x27 is not a valid " ++ kind

/-- Error message emitted by the minLength check. -/
def tooShortMsg (name : String) (m : Int) : String :=
  "Field \x27" ++ name ++ "\x27 too short (min: " ++ toString m ++ ")"

/-- Error message emitted by the maxLength check. -/
def tooLongMsg (name : String) (m : Int) : String :=
  "Field \x27" ++ name ++ "\x27 too long (max: " ++ toString m ++ ")"

/-- Error message emitted by the minimum check. -/
def belowMinMsg (name : String) (m : Int) : String :=
  "Field \x27" ++ name ++ "\x27 below minimum (min: " ++ toString m ++ ")"

/-- Error message emitted by the maximum check. -/
def aboveMaxMsg (name : String) (m : Int) : String :=
  "Field \x27" ++ name ++ "\x27 above maximum (max: " ++ toString m ++ ")"

/-- Error message emitted by the required-field check. -/
def missingMsg (name : String) : String :=
  "Missing required field: " ++ name

/-- Error message emitted for a field not declared in `properties`. -/
def unknownMsg (name : String) : String :=
  "Unknown field: " ++ name

/-- Type-conformance sub-check of `validate_field_types` (the chain of
`isinstance` tests dispatched on the declared type). Total: it never
raises. -/
def typeErrors (name : String) (fs : FieldSchema) (v : Value) : List String :=
  if fs.type == some "string" then
    if pyIsStr v then [] else [mustBeMsg name "string" (pyTypeName v)]
  else if fs.type == some "integer" then
    if pyIsInt v then [] else [mustBeMsg name "integer" (pyTypeName v)]
  else if fs.type == some "number" then
    if pyIsNum v then [] else [mustBeMsg name "number" (pyTypeName v)]
  else if fs.type == some "array" then
    if pyIsList v then [] else [mustBeMsg name "array" (pyTypeName v)]
  else if fs.type == some "object" then
    if pyIsDict v then [] else [mustBeMsg name "object" (pyTypeName v)]
  else []

/-- Enum sub-check of `validate_field_types`: list membership by Python
equality. Total: it never raises. -/
def enumErrors (name : String) (fs : FieldSchema) (v : Value) : List String :=
  match fs.enum with
  | none => []
  | some allowed =>
    if allowed.any (fun e => pyEq v e) then [] else [enumMsg name v allowed]

/-- Format sub-check of `validate_field_types`: dispatches on the format
string with no guard on the declared type; the underlying string
operations can raise on non-string values. -/
def formatErrors (name : String) (fs : FieldSchema) (v : Value) : Except PyErr (List String) :=
  match fs.format with
  | none => .ok []
  | some ft =>
    if ft == "uuid" then
      match is_valid_uuid v with
      | .error e => .error e
      | .ok ok => .ok (if ok then [] else [notValidMsg name "UUID"])
    else if ft == "email" then
      match pyContainsAtSign v with
      | .error e => .error e
      | .ok c => .ok (if c then [] else [notValidMsg name "email"])
    else if ft == "uri" then
      match pyStartsHttp v with
      | .error e => .error e
      | .ok b => .ok (if b then [] else [notValidMsg name "URI"])
    else .ok []

/-- The minLength half of the string-length sub-check. -/
def minLengthErrors (name : String) (fs : FieldSchema) (v : Value) : Except PyErr (List String) :=
  match fs.minLength with
  | none => .ok []
  | some m =>
    match pyLen v with
    | .error e => .error e
    | .ok n => .ok (if n < m then [tooShortMsg name m] else [])

/-- The maxLength half of the string-length sub-check. -/
def maxLengthErrors (name : String) (fs : FieldSchema) (v : Value) : Except PyErr (List String) :=
  match fs.maxLength with
  | none => .ok []
  | some m =>
    match pyLen v with
    | .error e => .error e
    | .ok n => .ok (if n > m then [tooLongMsg name m] else [])

/-- String-length sub-check of `validate_field_types`: runs only when the
declared type is string, but applies `len` to whatever runtime value the
field holds. -/
def lengthErrors (name : String) (fs : FieldSchema) (v : Value) : Except PyErr (List String) :=
  if fs.type == some "string" then
    match minLengthErrors name fs v with
    | .error e => .error e
    | .ok e1 =>
      match maxLengthErrors name fs v with
      | .error e => .error e
      | .ok e2 => .ok (e1 ++ e2)
  else .ok []

/-- The minimum half of the numeric-range sub-check. -/
def minimumErrors (name : String) (fs : FieldSchema) (v : Value) : Except PyErr (List String) :=
  match fs.minimum with
  | none => .ok []
  | some m =>
    match pyLtInt v m with
    | .error e => .error e
    | .ok b => .ok (if b then [belowMinMsg name m] else [])

/-- The maximum half of the numeric-range sub-check. -/
def maximumErrors (name : String) (fs : FieldSchema) (v : Value) : Except PyErr (List String) :=
  match fs.maximum with
  | none => .ok []
  | some m =>
    match pyGtInt v m with
    | .error e => .error e
    | .ok b => .ok (if b then [aboveMaxMsg name m] else [])

/-- Numeric-range sub-check of `validate_field_types`: runs only when the
declared type is integer or number, but compares whatever runtime value
the field holds. -/
def rangeErrors (name : String) (fs : FieldSchema) (v : Value) : Except PyErr (List String) :=
  if fs.type == some "integer" || fs.type == some "number" then
    match minimumErrors name fs v with
    | .error e => .error e
    | .ok e1 =>
      match maximumErrors name fs v with
      | .error e => .error e
      | .ok e2 => .ok (e1 ++ e2)
  else .ok []

/-- All errors contributed by one field of the instance: the body of the
`for field_name, field_value in data.items()` loop. An unknown field
yields its single error and `continue`; otherwise the sub-checks run in
source order (type, enum, format, length, range) and their errors are
appended in that order. An exception from any sub-check aborts. -/
def fieldErrors (props : List (String × FieldSchema)) (name : String) (v : Value) :
    Except PyErr (List String) :=
  match props.lookup name with
  | none => .ok [unknownMsg name]
  | some fs =>
    match formatErrors name fs v with
    | .error e => .error e
    | .ok fe =>
      match lengthErrors name fs v with
      | .error e => .error e
      | .ok le =>
        match rangeErrors name fs v with
        | .error e => .error e
        | .ok re => .ok (typeErrors name fs v ++ enumErrors name fs v ++ fe ++ le ++ re)

/-- Loop of `validate_field_types`, carrying the accumulated error list. -/
def fieldTypeLoop (props : List (String × FieldSchema)) :
    Instance → List String → Except PyErr (List String)
  | [], acc => .ok acc
  | (k, v) :: rest, acc =>
    match fieldErrors props k v with
    | .error e => .error e
    | .ok es => fieldTypeLoop props rest (acc ++ es)

/-- Embeds `validate_required_fields`: one pass over `schema.required`,
appending an error for each name that is not a key of the instance. -/
def validate_required_fields (data : Instance) (schema : SchemaDef) : Bool × List String :=
  let errors := schema.required.foldl
    (fun acc field => if (data.lookup field).isNone then acc ++ [missingMsg field] else acc) []
  (errors.length == 0, errors)

/-- Embeds `validate_field_types`: iterates the fields of the instance,
collecting per-field errors; an exception from a sub-check propagates. -/
def validate_field_types (data : Instance) (schema : SchemaDef) :
    Except PyErr (Bool × List String) :=
  match fieldTypeLoop schema.properties data [] with
  | .error e => .error e
  | .ok errors => .ok (errors.length == 0, errors)

/-- Contract document: the part of the parsed OpenAPI file the validator
reads, keeping each level of the `components.schemas` path optional so
that a missing key raises `KeyError` exactly as subscripting does. -/
structure ContractDoc where
  components : Option (Option (List (String × SchemaDef)))

/-- Embeds the subscript chain `spec["components"]["schemas"][name]`:
each missing level raises `KeyError` (the "schema not found" failure of
the run); otherwise the schema definition is returned. -/
def resolveSchema (spec : ContractDoc) (name : String) : Except PyErr SchemaDef :=
  match spec.components with
  | none => .error (.keyError "components")
  | some comps =>
    match comps with
    | none => .error (.keyError "schemas")
    | some schemas =>
      match schemas.lookup name with
      | none => .error (.keyError name)
      | some sd => .ok sd

/-- Embeds `validate_organization`: resolves the Organization schema,
runs the required-field pass then the per-field pass, concatenates their
error lists, and reports validity as emptiness of the combined list. -/
def validate_organization (data : Instance) (spec : ContractDoc) :
    Except PyErr (Bool × List String) :=
  match resolveSchema spec "Organization" with
  | .error e => .error e
  | .ok organization_schema =>
    let (_, errors1) := validate_required_fields data organization_schema
    match validate_field_types data organization_schema with
    | .error e => .error e
    | .ok (_, errors2) =>
      let all_errors := errors1 ++ errors2
      .ok (all_errors.length == 0, all_errors)

/-- Concatenation of the per-field error lists in instance order; used to
state what the loop of `validate_field_types` computes. -/
def allFieldErrors (props : List (String × FieldSchema)) : Instance → Except PyErr (List String)
  | [] => .ok []
  | (k, v) :: rest =>
    match fieldErrors props k v with
    | .error e => .error e
    | .ok es =>
      match allFieldErrors props rest with
      | .error e => .error e
      | .ok more => .ok (es ++ more)

/-- Organization schema used as a concrete test fixture (mirrors the
end-to-end scenario of the specification). -/
def orgSchemaW : SchemaDef :=
  { required := ["external_id", "name", "category"]
    properties :=
      [("external_id", { type := some "string", format := some "uuid" }),
       ("name", { type := some "string", minLength := some 1, maxLength := some 255 }),
       ("category", { type := some "string", enum := some [.vStr "vendor", .vStr "partner"] }),
       ("partnership_status", { type := some "string", enum := some [.vStr "active", .vStr "inactive"] })] }

/-- Contract document fixture exposing `components.schemas.Organization`. -/
def contractW : ContractDoc := ⟨some (some [("Organization", orgSchemaW)])⟩

/-- Instance fixture violating the format, minLength and enum checks. -/
def badInstanceW : Instance :=
  [("external_id", .vStr "bad-uuid"), ("name", .vStr ""), ("category", .vStr "unknown")]

/-- Field schema fixture: string with a maxLength bound. -/
def strFieldW : FieldSchema := { type := some "string", maxLength := some 3 }

/-- Field schema fixture: integer with a minimum bound. -/
def intFieldW : FieldSchema := { type := some "integer", minimum := some 0 }

/-- Field schema fixture: string restricted by an enum. -/
def catFieldW : FieldSchema := { type := some "string", enum := some [.vStr "vendor"] }

/-! Helper lemmas. -/

lemma tooShortMsg_ne_tooLongMsg (n : String) (k m : Int) : tooShortMsg n k ≠ tooLongMsg n m := by
  intro h
  have hd := congrArg String.data h
  simp [tooShortMsg, tooLongMsg, String.data_append] at hd

lemma belowMinMsg_ne_aboveMaxMsg (n : String) (k m : Int) : belowMinMsg n k ≠ aboveMaxMsg n m := by
  intro h
  have hd := congrArg String.data h
  simp [belowMinMsg, aboveMaxMsg, String.data_append] at hd

lemma mustBeMsg_ne_enumMsg (n ty got : String) (v : Value) (allowed : List Value) :
    mustBeMsg n ty got ≠ enumMsg n v allowed := by
  intro h
  have hd := congrArg String.data h
  simp [mustBeMsg, enumMsg, String.data_append] at hd

lemma missingMsg_inj {f g : String} (h : missingMsg f = missingMsg g) : f = g := by
  have hd := congrArg String.data h
  simp [missingMsg, String.data_append] at hd
  exact String.ext hd

lemma lookup_isSome_of_mem {f : String} {v : Value} :
    ∀ {data : Instance}, (f, v) ∈ data → (data.lookup f).isSome := by
  intro data h
  induction data with
  | nil => simp at h
  | cons kv rest ih =>
    obtain ⟨k, w⟩ := kv
    rcases List.mem_cons.mp h with heq | htail
    · obtain ⟨h1, h2⟩ := Prod.mk.injEq .. ▸ heq
      simp [List.lookup, h1.symm]
    · simp only [List.lookup]
      split
      · simp
      · exact ih htail

lemma foldl_append_filter_map {α β : Type} (p : α → Bool) (m : α → β) :
    ∀ (l : List α) (init : List β),
      l.foldl (fun acc x => if p x then acc ++ [m x] else acc) init
        = init ++ (l.filter p).map m := by
  intro l
  induction l with
  | nil => intro init; simp
  | cons x xs ih =>
    intro init
    by_cases hx : p x
    · simp [List.foldl, hx, ih, List.filter_cons]
    · simp [List.foldl, hx, ih, List.filter_cons]

lemma length_beq_zero_eq_isEmpty {α : Type} (l : List α) : (l.length == 0) = l.isEmpty := by
  cases l <;> rfl

lemma validate_required_fields_errors (data : Instance) (schema : SchemaDef) :
    (validate_required_fields data schema).2
      = (schema.required.filter (fun f => (data.lookup f).isNone)).map missingMsg := by
  unfold validate_required_fields
  simp only []
  exact foldl_append_filter_map (fun f => (data.lookup f).isNone) missingMsg schema.required []
    |>.trans (by simp)

lemma fieldTypeLoop_eq (props : List (String × FieldSchema)) :
    ∀ (l : Instance) (acc : List String),
      fieldTypeLoop props l acc = (allFieldErrors props l).map (fun es => acc ++ es) := by
  intro l
  induction l with
  | nil => intro acc; simp [fieldTypeLoop, allFieldErrors, Except.map]
  | cons kv rest ih =>
    intro acc
    obtain ⟨k, v⟩ := kv
    simp only [fieldTypeLoop, allFieldErrors]
    cases hf : fieldErrors props k v with
    | error e => simp [Except.map]
    | ok es =>
      dsimp only
      rw [ih]
      cases hr : allFieldErrors props rest with
      | error e => simp [Except.map]
      | ok more => simp [Except.map, List.append_assoc]

lemma typeErrors_shape (name : String) (fs : FieldSchema) (v : Value) :
    typeErrors name fs v = []
      ∨ ∃ ty, typeErrors name fs v = [mustBeMsg name ty (pyTypeName v)] := by
  unfold typeErrors
  repeat' split
  all_goals first | exact Or.inl rfl | exact Or.inr ⟨_, rfl⟩

lemma enumErrors_shape (name : String) (fs : FieldSchema) (v : Value) :
    enumErrors name fs v = []
      ∨ ∃ allowed, enumErrors name fs v = [enumMsg name v allowed] := by
  unfold enumErrors
  repeat' split
  all_goals first | exact Or.inl rfl | exact Or.inr ⟨_, rfl⟩

/-! Claim theorems. -/

/-- C5: the required-field evaluator returns exactly one error
`Missing required field: <name>` for each name of the `required` list
that is absent as a key of the instance, in `required` order, and a field
present with any value (null or empty included) is never reported
missing. -/
theorem claim_C5_required_fields (data : Instance) (schema : SchemaDef) :
    (validate_required_fields data schema).2
        = (schema.required.filter (fun f => (data.lookup f).isNone)).map missingMsg
      ∧ ∀ (f : String) (v : Value), (f, v) ∈ data →
          missingMsg f ∉ (validate_required_fields data schema).2 := by
  refine ⟨validate_required_fields_errors data schema, ?_⟩
  intro f v hm hmem
  rw [validate_required_fields_errors data schema] at hmem
  obtain ⟨g, hg, heq⟩ := List.mem_map.mp hmem
  obtain ⟨-, hnone⟩ := List.mem_filter.mp hg
  rw [missingMsg_inj heq] at hnone
  have hsome := lookup_isSome_of_mem hm
  rw [Option.isNone_iff_eq_none.mp hnone] at hsome
  simp at hsome

/-- Witness for C5 at a concrete instance: field `a` is present with a
null value and is not reported missing. -/
theorem claim_C5_witness :
    missingMsg "a" ∉
      (validate_required_fields [("a", Value.vNull)] { required := ["a", "b"] }).2 :=
  (claim_C5_required_fields [("a", Value.vNull)] { required := ["a", "b"] }).2
    "a" Value.vNull (by simp)

/-- C6: a field with no entry in `properties` contributes exactly the one
error `Unknown field: <name>`, whatever its value, and no other sub-check
runs for it (in particular the evaluation cannot raise). -/
theorem claim_C6_unknown_field (props : List (String × FieldSchema)) (name : String) (v : Value)
    (h : props.lookup name = none) :
    fieldErrors props name v = .ok [unknownMsg name] := by
  simp [fieldErrors, h]

/-- Witness for C6: an undeclared field with a null value yields exactly
its unknown-field error. -/
theorem claim_C6_witness :
    fieldErrors [("known", strFieldW)] "extra" Value.vNull = .ok [unknownMsg "extra"] :=
  claim_C6_unknown_field [("known", strFieldW)] "extra" Value.vNull rfl

/-- C2 counterexample: the claim asserts that a boolean value fails the
`integer` type check with the error `Field .. must be integer, got bool`;
on the code, `isinstance(True, int)` holds, so validating the boolean
value `True` against a field of declared type `integer` emits no error at
all and the instance is reported valid. -/
theorem claim_C2_counterexample :
    validate_field_types [("count", Value.vBool true)]
      { properties := [("count", { type := some "integer" })] } = .ok (true, []) := rfl

/-- C2 amended: a boolean value satisfies the `integer` type check (Python
booleans are instances of `int`), so the type sub-check emits no error
for it. -/
theorem claim_C2_amended (name : String) (fs : FieldSchema) (b : Bool)
    (h : fs.type = some "integer") :
    typeErrors name fs (.vBool b) = [] := by
  simp [typeErrors, h, pyIsInt]

/-- Witness for the amended C2 at a concrete field schema. -/
theorem claim_C2_witness :
    typeErrors "count" { type := some "integer" } (Value.vBool true) = [] :=
  claim_C2_amended "count" { type := some "integer" } true rfl

/-- C3 counterexample: the claim asserts the format check runs only when
the declared type is `string`; on the code it runs whenever `format` is
present, so a field declared `integer` with format `uuid` holding a
non-UUID string gets a format error in addition to its type error. -/
theorem claim_C3_counterexample :
    validate_field_types [("code", Value.vStr "nope")]
      { properties := [("code", { type := some "integer", format := some "uuid" })] }
      = .ok (false, [mustBeMsg "code" "integer" "str", notValidMsg "code" "UUID"]) := by decide

/-- C3 amended: the format sub-check depends only on the `format` entry of
the field schema and ignores the declared type entirely; two field
schemas with the same `format` produce identical format-check results on
every value. -/
theorem claim_C3_amended (name : String) (v : Value) (fs1 fs2 : FieldSchema)
    (h : fs1.format = fs2.format) :
    formatErrors name fs1 v = formatErrors name fs2 v := by
  unfold formatErrors
  rw [h]

/-- Witness for the amended C3: a uri-formatted field behaves identically
whether its declared type is integer or string. -/
theorem claim_C3_witness :
    formatErrors "website" { type := some "integer", format := some "uri" }
        (Value.vStr "ftp://host")
      = formatErrors "website" { type := some "string", format := some "uri" }
        (Value.vStr "ftp://host") :=
  claim_C3_amended "website" (Value.vStr "ftp://host")
    { type := some "integer", format := some "uri" }
    { type := some "string", format := some "uri" } rfl

/-- C1 counterexample: the claim asserts validation never raises for
data-shape problems and completes with the remaining errors; on the code,
a field declared `string` with a `minLength` bound holding an integer
value makes `len(field_value)` raise `TypeError`, aborting the pass with
no error list (the already-recorded type error is lost). -/
theorem claim_C1_counterexample :
    validate_field_types [("name", Value.vInt 5)]
      { properties := [("name", { type := some "string", minLength := some 1 })] }
      = .error (.typeError "object of type int has no len()") := rfl

/-- C1 amended: validation raises for data-shape problems instead of
skipping the unsupported sub-check: whenever the first field of the
instance is declared `string` with a `minLength` bound (and no format)
but holds an integer value, the whole per-field pass aborts with a
`TypeError` and returns no error list. -/
theorem claim_C1_amended (name : String) (k : Int) (rest : Instance) (schema : SchemaDef)
    (fs : FieldSchema) (m : Int) (hp : schema.properties.lookup name = some fs)
    (hty : fs.type = some "string") (hmin : fs.minLength = some m) (hfmt : fs.format = none) :
    validate_field_types ((name, Value.vInt k) :: rest) schema
      = .error (.typeError "object of type int has no len()") := by
  have hfield : fieldErrors schema.properties name (.vInt k)
      = .error (.typeError "object of type int has no len()") := by
    simp [fieldErrors, hp, formatErrors, hfmt, lengthErrors, hty, minLengthErrors, hmin, pyLen]
  simp [validate_field_types, fieldTypeLoop, hfield]

/-- Witness for the amended C1 at a concrete schema and instance. -/
theorem claim_C1_witness :
    validate_field_types [("name", Value.vInt 5)]
      { properties := [("name", { type := some "string", minLength := some 1 })] }
      = .error (.typeError "object of type int has no len()") :=
  claim_C1_amended "name" 5 []
    { properties := [("name", { type := some "string", minLength := some 1 })] }
    { type := some "string", minLength := some 1 } 1 rfl rfl rfl rfl

/-- C7: when a field that is declared in `properties` fails both its type
check and its enum check and its per-field evaluation completes, the
error list for that field starts with the type error followed by the enum
error — two distinct errors, not one. -/
theorem claim_C7_type_and_enum (props : List (String × FieldSchema)) (name : String) (v : Value)
    (fs : FieldSchema) (es : List String)
    (hp : props.lookup name = some fs)
    (hok : fieldErrors props name v = .ok es)
    (hty : typeErrors name fs v ≠ [])
    (hen : enumErrors name fs v ≠ []) :
    ∃ ty allowed rest,
      es = mustBeMsg name ty (pyTypeName v) :: enumMsg name v allowed :: rest
        ∧ mustBeMsg name ty (pyTypeName v) ≠ enumMsg name v allowed := by
  rcases typeErrors_shape name fs v with h1 | ⟨ty, h1⟩
  · exact absurd h1 hty
  rcases enumErrors_shape name fs v with h2 | ⟨allowed, h2⟩
  · exact absurd h2 hen
  unfold fieldErrors at hok
  rw [hp] at hok
  dsimp only at hok
  cases hf : formatErrors name fs v with
  | error e => rw [hf] at hok; simp at hok
  | ok fe =>
    rw [hf] at hok
    cases hl : lengthErrors name fs v with
    | error e => rw [hl] at hok; simp at hok
    | ok le =>
      rw [hl] at hok
      cases hr : rangeErrors name fs v with
      | error e => rw [hr] at hok; simp at hok
      | ok re =>
        rw [hr] at hok
        simp only [Except.ok.injEq] at hok
        refine ⟨ty, allowed, fe ++ le ++ re, ?_,
          mustBeMsg_ne_enumMsg name ty (pyTypeName v) v allowed⟩
        rw [← hok, h1, h2]
        simp

/-- Witness for C7: an integer value for a string-typed enum field gets
both its type error and its enum error in one pass. -/
theorem claim_C7_witness :
    ∃ ty allowed rest,
      [mustBeMsg "category" "string" "int", enumMsg "category" (.vInt 7) [.vStr "vendor"]]
          = mustBeMsg "category" ty (pyTypeName (.vInt 7))
              :: enumMsg "category" (.vInt 7) allowed :: rest
        ∧ mustBeMsg "category" ty (pyTypeName (.vInt 7))
            ≠ enumMsg "category" (.vInt 7) allowed :=
  claim_C7_type_and_enum [("category", catFieldW)] "category" (.vInt 7) catFieldW
    [mustBeMsg "category" "string" "int", enumMsg "category" (.vInt 7) [.vStr "vendor"]]
    rfl (by decide) (by decide) (by decide)

lemma lengthErrors_str (name : String) (fs : FieldSchema) (s : String)
    (hty : fs.type = some "string") :
    lengthErrors name fs (.vStr s)
      = .ok ((match fs.minLength with
                | none => []
                | some k => if (s.length : Int) < k then [tooShortMsg name k] else [])
             ++ (match fs.maxLength with
                | none => []
                | some k => if (s.length : Int) > k then [tooLongMsg name k] else [])) := by
  unfold lengthErrors minLengthErrors maxLengthErrors
  rw [hty]
  cases fs.minLength <;> cases fs.maxLength <;> simp [pyLen]

lemma rangeErrors_int (name : String) (fs : FieldSchema) (n : Int)
    (hty : fs.type = some "integer" ∨ fs.type = some "number") :
    rangeErrors name fs (.vInt n)
      = .ok ((match fs.minimum with
                | none => []
                | some m => if n < m then [belowMinMsg name m] else [])
             ++ (match fs.maximum with
                | none => []
                | some m => if n > m then [aboveMaxMsg name m] else [])) := by
  unfold rangeErrors minimumErrors maximumErrors
  rcases hty with hty | hty <;> rw [hty] <;>
    cases fs.minimum <;> cases fs.maximum <;> simp [pyLtInt, pyGtInt]

/-- C8: length and range bounds are inclusive. For a string-typed field
with `maxLength m`, a string of exactly `m` characters gets no too-long
error and one of `m + 1` characters does; for a numeric-typed field with
`minimum m`, the value `m` gets no below-minimum error and `m - 1` does
(whenever the length/range sub-check completes with list `l`). -/
theorem claim_C8_inclusive_bounds :
    (∀ (name : String) (fs : FieldSchema) (s : String) (m : Int) (l : List String),
        fs.type = some "string" → fs.maxLength = some m →
        lengthErrors name fs (.vStr s) = .ok l →
        (((s.length : Int) = m → tooLongMsg name m ∉ l)
          ∧ ((s.length : Int) = m + 1 → tooLongMsg name m ∈ l)))
  ∧ (∀ (name : String) (fs : FieldSchema) (n m : Int) (l : List String),
        (fs.type = some "integer" ∨ fs.type = some "number") → fs.minimum = some m →
        rangeErrors name fs (.vInt n) = .ok l →
        ((n = m → belowMinMsg name m ∉ l)
          ∧ (n = m - 1 → belowMinMsg name m ∈ l))) := by
  constructor
  · intro name fs s m l hty hmax hlen
    rw [lengthErrors_str name fs s hty, hmax] at hlen
    simp only [Except.ok.injEq] at hlen
    constructor
    · intro heq
      rw [← hlen, heq]
      simp only [gt_iff_lt, lt_irrefl, if_false, List.append_nil, List.mem_append]
      cases hmin : fs.minLength with
      | none => simp
      | some k =>
        by_cases hk : (m : Int) < k
        · simp only [hk, if_true, List.mem_singleton]
          exact fun hcontra => tooShortMsg_ne_tooLongMsg name k m hcontra.symm
        · simp [hk]
    · intro heq
      rw [← hlen, heq]
      have hlt : (m : Int) < m + 1 := by omega
      simp [hlt]
  · intro name fs n m l hty hmin hrange
    rw [rangeErrors_int name fs n hty, hmin] at hrange
    simp only [Except.ok.injEq] at hrange
    constructor
    · intro heq
      rw [← hrange, heq]
      simp only [lt_irrefl, if_false, List.nil_append, List.mem_append]
      cases hmax : fs.maximum with
      | none => simp
      | some k =>
        by_cases hk : (m : Int) > k
        · simp only [hk, if_true, List.mem_singleton]
          exact fun hcontra => belowMinMsg_ne_aboveMaxMsg name m k hcontra
        · simp [hk]
    · intro heq
      rw [← hrange, heq]
      have hlt : (m - 1 : Int) < m := by omega
      simp [hlt]

/-- Witness for C8: a 3-character string passes `maxLength 3` while a
4-character one fails it, and the value 0 passes `minimum 0` while -1
fails it. -/
theorem claim_C8_witness :
    tooLongMsg "name" 3 ∉ ([] : List String)
      ∧ tooLongMsg "name" 3 ∈ [tooLongMsg "name" 3]
      ∧ belowMinMsg "count" 0 ∉ ([] : List String)
      ∧ belowMinMsg "count" 0 ∈ [belowMinMsg "count" 0] :=
  ⟨(claim_C8_inclusive_bounds.1 "name" strFieldW "abc" 3 [] rfl rfl (by decide)).1 (by decide),
   (claim_C8_inclusive_bounds.1 "name" strFieldW "abcd" 3 [tooLongMsg "name" 3]
      rfl rfl (by decide)).2 (by decide),
   (claim_C8_inclusive_bounds.2 "count" intFieldW 0 0 [] (Or.inl rfl) rfl (by decide)).1 rfl,
   (claim_C8_inclusive_bounds.2 "count" intFieldW (-1) 0 [belowMinMsg "count" 0]
      (Or.inl rfl) rfl (by decide)).2 (by decide)⟩

/-- C4: whenever the orchestrator completes with `(b, errs)`, `errs` is
exactly the required-field errors followed by the per-field errors in
instance-iteration order, each completed field contributing its sub-check
errors in the fixed order type, enum, format, length, range, and
`b = true` exactly when `errs` is empty. -/
theorem claim_C4_orchestrator (data : Instance) (spec : ContractDoc) (b : Bool)
    (errs : List String) (h : validate_organization data spec = .ok (b, errs)) :
    ∃ sd ferrs, resolveSchema spec "Organization" = .ok sd
      ∧ allFieldErrors sd.properties data = .ok ferrs
      ∧ errs = (validate_required_fields data sd).2 ++ ferrs
      ∧ (b = true ↔ errs = [])
      ∧ (∀ (fname : String) (v : Value) (fs : FieldSchema) (es : List String),
          sd.properties.lookup fname = some fs →
          fieldErrors sd.properties fname v = .ok es →
          ∃ fe le re, formatErrors fname fs v = .ok fe
            ∧ lengthErrors fname fs v = .ok le
            ∧ rangeErrors fname fs v = .ok re
            ∧ es = typeErrors fname fs v ++ enumErrors fname fs v ++ fe ++ le ++ re) := by
  unfold validate_organization at h
  cases hres : resolveSchema spec "Organization" with
  | error e => rw [hres] at h; simp at h
  | ok sd =>
    rw [hres] at h
    dsimp only at h
    unfold validate_field_types at h
    rw [fieldTypeLoop_eq] at h
    cases ha : allFieldErrors sd.properties data with
    | error e => rw [ha] at h; simp [Except.map] at h
    | ok ferrs =>
      rw [ha] at h
      simp only [Except.map, List.nil_append] at h
      refine ⟨sd, ferrs, rfl, ha, ?_, ?_, ?_⟩
      · simp only [Except.ok.injEq, Prod.mk.injEq] at h
        exact h.2.symm
      · simp only [Except.ok.injEq, Prod.mk.injEq] at h
        rw [← h.1, ← h.2, length_beq_zero_eq_isEmpty]
        simp [List.isEmpty_iff]
      · intro fname v fs es hp hes
        unfold fieldErrors at hes
        rw [hp] at hes
        dsimp only at hes
        cases hf : formatErrors fname fs v with
        | error e => rw [hf] at hes; simp at hes
        | ok fe =>
          rw [hf] at hes
          cases hl : lengthErrors fname fs v with
          | error e => rw [hl] at hes; simp at hes
          | ok le =>
            rw [hl] at hes
            cases hr : rangeErrors fname fs v with
            | error e => rw [hr] at hes; simp at hes
            | ok re =>
              rw [hr] at hes
              simp only [Except.ok.injEq] at hes
              exact ⟨fe, le, re, rfl, rfl, rfl, hes.symm⟩

/-- Witness for C4 at the end-to-end fixture: the bad instance yields
exactly its three per-field errors after zero required-field errors. -/
theorem claim_C4_witness :
    ∃ sd ferrs, resolveSchema contractW "Organization" = .ok sd
      ∧ allFieldErrors sd.properties badInstanceW = .ok ferrs
      ∧ [notValidMsg "external_id" "UUID", tooShortMsg "name" 1,
          enumMsg "category" (.vStr "unknown") [.vStr "vendor", .vStr "partner"]]
          = (validate_required_fields badInstanceW sd).2 ++ ferrs
      ∧ (false = true ↔ [notValidMsg "external_id" "UUID", tooShortMsg "name" 1,
          enumMsg "category" (.vStr "unknown") [.vStr "vendor", .vStr "partner"]] = [])
      ∧ (∀ (fname : String) (v : Value) (fs : FieldSchema) (es : List String),
          sd.properties.lookup fname = some fs →
          fieldErrors sd.properties fname v = .ok es →
          ∃ fe le re, formatErrors fname fs v = .ok fe
            ∧ lengthErrors fname fs v = .ok le
            ∧ rangeErrors fname fs v = .ok re
            ∧ es = typeErrors fname fs v ++ enumErrors fname fs v ++ fe ++ le ++ re) :=
  claim_C4_orchestrator badInstanceW contractW false
    [notValidMsg "external_id" "UUID", tooShortMsg "name" 1,
      enumMsg "category" (.vStr "unknown") [.vStr "vendor", .vStr "partner"]]
    (by decide)

/-- C9: schema resolution fails with the key-lookup error (the
`SchemaNotFoundError` of the run) exactly when the requested name is
absent from `components.schemas` or the document lacks part of that path,
and succeeds with the schema definition otherwise; every resolution
failure is a key error (distinct from validation errors, which are
returned in the list), and it aborts the orchestrator before any
validation output is produced. -/
theorem claim_C9_schema_resolution :
    (∀ (spec : ContractDoc) (name : String),
        (spec.components = none →
            resolveSchema spec name = .error (.keyError "components"))
      ∧ (spec.components = some none →
            resolveSchema spec name = .error (.keyError "schemas"))
      ∧ (∀ schemas, spec.components = some (some schemas) → schemas.lookup name = none →
            resolveSchema spec name = .error (.keyError name))
      ∧ (∀ schemas sd, spec.components = some (some schemas) → schemas.lookup name = some sd →
            resolveSchema spec name = .ok sd))
  ∧ (∀ (spec : ContractDoc) (name : String) (e : PyErr),
        resolveSchema spec name = .error e → ∃ key, e = .keyError key)
  ∧ (∀ (data : Instance) (spec : ContractDoc) (e : PyErr),
        resolveSchema spec "Organization" = .error e →
        validate_organization data spec = .error e) := by
  refine ⟨?_, ?_, ?_⟩
  · intro spec name
    refine ⟨?_, ?_, ?_, ?_⟩
    · intro h
      simp [resolveSchema, h]
    · intro h
      simp [resolveSchema, h]
    · intro schemas h1 h2
      simp [resolveSchema, h1, h2]
    · intro schemas sd h1 h2
      simp [resolveSchema, h1, h2]
  · intro spec name e h
    unfold resolveSchema at h
    repeat' split at h
    all_goals first
      | exact ⟨_, (Except.error.inj h).symm⟩
      | exact absurd h (by simp)
  · intro data spec e h
    simp [validate_organization, h]

/-- Witness for C9: a missing Organization entry yields the key error and
a contract without `components` aborts the orchestrator with no result. -/
theorem claim_C9_witness :
    resolveSchema ⟨some (some [])⟩ "Organization" = .error (.keyError "Organization")
      ∧ (∃ key, (PyErr.keyError "Organization") = .keyError key)
      ∧ validate_organization [] ⟨none⟩ = .error (.keyError "components") :=
  ⟨(claim_C9_schema_resolution.1 ⟨some (some [])⟩ "Organization").2.2.1 [] rfl rfl,
   claim_C9_schema_resolution.2.1 ⟨some (some [])⟩ "Organization"
     (.keyError "Organization")
     ((claim_C9_schema_resolution.1 ⟨some (some [])⟩ "Organization").2.2.1 [] rfl rfl),
   claim_C9_schema_resolution.2.2 [] ⟨none⟩ (.keyError "components") rfl⟩

/-- C10: each evaluator reports validity as emptiness of its own error
list: the required-field pass always, and the per-field pass and the
orchestrator whenever they complete; the orchestrator verdict is `true`
exactly when both sub-evaluators produced no errors. -/
theorem claim_C10_valid_iff_no_errors :
    (∀ (data : Instance) (schema : SchemaDef),
        (validate_required_fields data schema).1
          = (validate_required_fields data schema).2.isEmpty)
  ∧ (∀ (data : Instance) (schema : SchemaDef) (b : Bool) (errs : List String),
        validate_field_types data schema = .ok (b, errs) → b = errs.isEmpty)
  ∧ (∀ (data : Instance) (spec : ContractDoc) (b : Bool) (errs : List String),
        validate_organization data spec = .ok (b, errs) →
        b = errs.isEmpty
          ∧ ∃ sd r2, resolveSchema spec "Organization" = .ok sd
              ∧ validate_field_types data sd = .ok r2
              ∧ (b = true ↔ (validate_required_fields data sd).2 = [] ∧ r2.2 = [])) := by
  refine ⟨?_, ?_, ?_⟩
  · intro data schema
    unfold validate_required_fields
    exact length_beq_zero_eq_isEmpty _
  · intro data schema b errs h
    unfold validate_field_types at h
    cases hl : fieldTypeLoop schema.properties data [] with
    | error e => rw [hl] at h; simp at h
    | ok l =>
      rw [hl] at h
      simp only [Except.ok.injEq, Prod.mk.injEq] at h
      rw [← h.1, ← h.2]
      exact length_beq_zero_eq_isEmpty l
  · intro data spec b errs h
    unfold validate_organization at h
    cases hres : resolveSchema spec "Organization" with
    | error e => rw [hres] at h; simp at h
    | ok sd =>
      rw [hres] at h
      dsimp only at h
      cases hv : validate_field_types data sd with
      | error e => rw [hv] at h; simp at h
      | ok r2 =>
        rw [hv] at h
        obtain ⟨b2, e2⟩ := r2
        simp only [Except.ok.injEq, Prod.mk.injEq] at h
        constructor
        · rw [← h.1, ← h.2]
          exact length_beq_zero_eq_isEmpty _
        · refine ⟨sd, (b2, e2), rfl, hv, ?_⟩
          rw [← h.1, length_beq_zero_eq_isEmpty]
          simp [List.isEmpty_iff, List.append_eq_nil]

/-- Witness for C10 at a concrete run: the empty instance against the
fixture contract completes with one missing-field error per required
field and a false verdict. -/
theorem claim_C10_witness :
    false = [missingMsg "external_id", missingMsg "name", missingMsg "category"].isEmpty
      ∧ ∃ sd r2, resolveSchema contractW "Organization" = .ok sd
          ∧ validate_field_types [] sd = .ok r2
          ∧ (false = true ↔ (validate_required_fields [] sd).2 = [] ∧ r2.2 = []) :=
  claim_C10_valid_iff_no_errors.2.2 [] contractW false
    [missingMsg "external_id", missingMsg "name", missingMsg "category"] (by decide)
